import Mathlib

/-!
Shallow embedding of the Loja in-editor AI chat controller
(`src/extension.ts` and the unnamed near-duplicate controller file,
called `part_000` below).  JavaScript strings are modelled as Lean
`String`s viewed as lists of characters; JS `String.replace` with a
string pattern (first occurrence only), `includes`, `startsWith`,
`substring`/`slice` and `trim` are reimplemented below.  Editor-host
facilities (active editor, workspace folders, file system, HTTP
transport) are external collaborators and enter as explicit parameters.
-/

namespace Loja

/-- True when the first list is a prefix of the second
(character-by-character comparison, as a JS engine would do). -/
def isPrefixL : List Char → List Char → Bool
  | [], _ => true
  | _ :: _, [] => false
  | a :: as, b :: bs => a == b && isPrefixL as bs

/-- JS `haystack.includes(pat)`: does `pat` occur as a contiguous substring? -/
def containsSubL (pat : List Char) : List Char → Bool
  | [] => isPrefixL pat []
  | c :: cs => isPrefixL pat (c :: cs) || containsSubL pat cs

/-- JS `s.replace(pat, rep)` with a string pattern: replace the FIRST
occurrence of `pat` only; if `pat` does not occur, return `s` unchanged. -/
def replaceFirstL (pat rep : List Char) : List Char → List Char
  | [] => []
  | c :: cs =>
    if isPrefixL pat (c :: cs) then rep ++ (c :: cs).drop pat.length
    else c :: replaceFirstL pat rep cs

/-- JS `s.includes(pat)` on `String`. -/
def strIncludes (s pat : String) : Bool := containsSubL pat.data s.data

/-- JS `s.replace(pat, rep)` (first occurrence) on `String`. -/
def strReplaceFirst (s pat rep : String) : String :=
  String.mk (replaceFirstL pat.data rep.data s.data)

/-- JS `s.startsWith(pre)` on `String`. -/
def strStartsWith (s pre : String) : Bool := isPrefixL pre.data s.data

/-- JS `s.substring(0, n)` / `s.slice(0, n)` (for ASCII content the
UTF-16 unit count coincides with the character count). -/
def jsTake (s : String) (n : Nat) : String := String.mk (s.data.take n)

/-- JS `s.length` (character count; equals the UTF-16 unit count for the
ASCII strings the development evaluates on). -/
def jsLength (s : String) : Nat := s.data.length

/-- The common ASCII whitespace characters removed by JS `trim`
(JS also trims some rarer Unicode spaces; the claims only exercise
these). -/
def jsIsSpace (c : Char) : Bool :=
  c == ' ' || c == '\t' || c == '\n' || c == '\r'

/-- JS `s.trim()`. -/
def jsTrim (s : String) : String :=
  String.mk (((s.data.dropWhile jsIsSpace).reverse.dropWhile jsIsSpace).reverse)

/-- JS `Array.join(sep)`. -/
def joinSep (sep : String) : List String → String
  | [] => ""
  | [s] => s
  | s :: rest => s ++ sep ++ joinSep sep rest

/-- Message roles of the history store
(`role: 'user' | 'ai' | 'error' | 'loading' | 'system'`). -/
inductive Role
  | user
  | ai
  | error
  | loading
  | system
deriving DecidableEq

/-- One entry of `_messageHistory`. -/
structure Message where
  role : Role
  content : String
deriving DecidableEq

/-- A resolved context unit as pushed into `resolvedReferences`
(only the `icon`, `name` and `content` fields are consumed downstream
when the final prompt is assembled; the `path` field some producers add
is never read afterwards and is omitted). -/
structure ContextItem where
  icon : String
  name : String
  content : String
deriving DecidableEq

/-- Editor-host state consulted while resolving the three bracket
markers, plus the file system used for file context bubbles:
`selCtx`, `fileCtx`, `wsCtx` are the results of `_getCurrentSelection`,
`_getCurrentFile` and `_getWorkspaceInfo` (each `none` when the
corresponding source is unavailable), and `readFile` models
`vscode.workspace.fs.readFile` (`none` = the read throws). -/
structure Env where
  selCtx : Option ContextItem
  fileCtx : Option ContextItem
  wsCtx : Option ContextItem
  readFile : String → Option String

/-- The bolded display label `**${icon} ${name}**` substituted at a
marker site. -/
def markerLabel (c : ContextItem) : String :=
  "**" ++ c.icon ++ " " ++ c.name ++ "**"

/-- The fallback text the `part_000` controller substitutes for
`[selection]` when no selection is resolvable. -/
def noSelectionFound : String :=
  "**No selection found** - Please select some text first, or use the \"Add Selection to Chat\" command from the right-click menu."

/-- Bracket-marker resolution of `_handleUserMessage` in
`src/extension.ts`: `[selection]`, then `[file]`, then `[workspace]`;
a marker whose source is unavailable is left untouched (no `else`
branch exists in this variant). Returns the substituted display text and
the list of resolved context items, in push order. -/
def resolveMarkersExt (text : String) (env : Env) : String × List ContextItem :=
  let s1 :=
    if strIncludes text "[selection]" then
      match env.selCtx with
      | some c => (strReplaceFirst text "[selection]" (markerLabel c), [c])
      | none => (text, ([] : List ContextItem))
    else (text, [])
  let s2 :=
    if strIncludes s1.1 "[file]" then
      match env.fileCtx with
      | some c => (strReplaceFirst s1.1 "[file]" (markerLabel c), s1.2 ++ [c])
      | none => (s1.1, s1.2)
    else (s1.1, s1.2)
  if strIncludes s2.1 "[workspace]" then
    match env.wsCtx with
    | some c => (strReplaceFirst s2.1 "[workspace]" (markerLabel c), s2.2 ++ [c])
    | none => (s2.1, s2.2)
  else (s2.1, s2.2)

/-- Bracket-marker resolution of `_handleUserMessage` in `part_000`:
identical to the `extension.ts` variant except that an unresolvable
`[selection]` is replaced by the `noSelectionFound` fallback text
(the `else` branch at part_000 lines 282-288). -/
def resolveMarkersP000 (text : String) (env : Env) : String × List ContextItem :=
  let s1 :=
    if strIncludes text "[selection]" then
      match env.selCtx with
      | some c => (strReplaceFirst text "[selection]" (markerLabel c), [c])
      | none => (strReplaceFirst text "[selection]" noSelectionFound, ([] : List ContextItem))
    else (text, [])
  let s2 :=
    if strIncludes s1.1 "[file]" then
      match env.fileCtx with
      | some c => (strReplaceFirst s1.1 "[file]" (markerLabel c), s1.2 ++ [c])
      | none => (s1.1, s1.2)
    else (s1.1, s1.2)
  if strIncludes s2.1 "[workspace]" then
    match env.wsCtx with
    | some c => (strReplaceFirst s2.1 "[workspace]" (markerLabel c), s2.2 ++ [c])
    | none => (s2.1, s2.2)
  else (s2.1, s2.2)

/-- The two near-duplicate controller implementations present in the
repository. -/
inductive Variant
  | extensionTs
  | part000
deriving DecidableEq

/-- Marker resolution of the chosen controller variant. -/
def resolveMarkers : Variant → String → Env → String × List ContextItem
  | Variant.extensionTs, t, e => resolveMarkersExt t e
  | Variant.part000, t, e => resolveMarkersP000 t e

/-- Splits on the separators of the regex `/[\\/]/`. -/
def splitPathSeps : List Char → List (List Char)
  | [] => [[]]
  | c :: cs =>
    if c == '/' || c == '\\' then [] :: splitPathSeps cs
    else
      match splitPathSeps cs with
      | [] => [[c]]
      | g :: gs => (c :: g) :: gs

/-- JS `filePath.split(/[\\/]/).pop() || 'unknown'`. -/
def lastPathComponent (s : String) : String :=
  match (splitPathSeps s.data).getLast? with
  | some seg => if seg.isEmpty then "unknown" else String.mk seg
  | none => "unknown"

/-- Embedding of `_handleAddFileToContext`: read the file, truncate its content to the
first 2000 characters plus a `\n... (truncated)` marker when longer, and
return the context item; a failed read is caught and yields `null`. -/
def handleAddFileToContext (env : Env) (filePath : String) : Option ContextItem :=
  match env.readFile filePath with
  | none => none
  | some content =>
    some { icon := "📄",
           name := lastPathComponent filePath,
           content :=
             if jsLength content > 2000 then jsTake content 2000 ++ "\n... (truncated)"
             else content }

/-- A context bubble sent along with a `userMessage`
(`message.contextItems`); the handler only acts on items of type
`file` (with a truthy `path`) and `selection`. -/
inductive Bubble
  | file (path : String)
  | selection (icon : Option String) (name : String) (content : String)
deriving DecidableEq

/-- Resolution of a single bubble inside `_handleUserMessage`:
a file bubble re-reads the file at send time (dropped silently when the
read fails or the path is empty/falsy); a selection bubble reuses the
stored content verbatim. -/
def resolveBubble (env : Env) : Bubble → List ContextItem
  | Bubble.file path =>
    if path = "" then []
    else
      match handleAddFileToContext env path with
      | some it => [it]
      | none => []
  | Bubble.selection icon name content => [⟨icon.getD "📝", name, content⟩]

/-- The bubble loop of `_handleUserMessage`. -/
def resolveBubbles (env : Env) : List Bubble → List ContextItem
  | [] => []
  | b :: rest => resolveBubble env b ++ resolveBubbles env rest

/-- An inline reference carried by a `userMessage`
(`message.inlineReferences`): a textual label in the input plus the
captured data. -/
structure InlineRef where
  reference : String
  icon : Option String
  fileName : String
  startLine : Nat
  endLine : Nat
  content : String
deriving DecidableEq

/-- JS string coercion of a possibly-undefined field
(template literals render `undefined` as the text "undefined"). -/
def jsToStr : Option String → String
  | some s => s
  | none => "undefined"

/-- The context item pushed for an inline reference
(`icon: refData.icon || '📝'`). -/
def inlineRefItem (r : InlineRef) : ContextItem :=
  ⟨r.icon.getD "📝",
   r.fileName ++ ":" ++ toString r.startLine ++ "-" ++ toString r.endLine,
   r.content⟩

/-- The display label substituted for an inline reference in the message
text (this template uses `refData.icon` raw, without the `|| '📝'`
default). -/
def inlineRefLabel (r : InlineRef) : String :=
  "**" ++ jsToStr r.icon ++ " " ++ r.fileName ++ ":" ++ toString r.startLine
    ++ "-" ++ toString r.endLine ++ "**"

/-- The inline-reference loop of `_handleUserMessage`: each reference is
pushed as a context item and its textual occurrence replaced by a bolded
label. -/
def applyInlineRefs (text : String) : List InlineRef → String × List ContextItem
  | [] => (text, [])
  | r :: rest =>
    let t2 := strReplaceFirst text r.reference (inlineRefLabel r)
    let p := applyInlineRefs t2 rest
    (p.1, inlineRefItem r :: p.2)

/-- The inbound `userMessage` payload. -/
structure UserMessage where
  text : String
  contextItems : List Bubble
  inlineReferences : List InlineRef

/-- The whole reference-resolution pass of `_handleUserMessage`:
markers, then bubbles, then inline references; returns the substituted
display text and all resolved context items in push order. -/
def buildPrompt (v : Variant) (env : Env) (m : UserMessage) : String × List ContextItem :=
  let s := resolveMarkers v m.text env
  let bubbleItems := resolveBubbles env m.contextItems
  let p := applyInlineRefs s.1 m.inlineReferences
  (p.1, s.2 ++ bubbleItems ++ p.2)

/-- One item of the aggregated context block:
`**${icon} ${name}:**\n\`\`\`\n${content}\n\`\`\``. -/
def itemBlock (it : ContextItem) : String :=
  "**" ++ it.icon ++ " " ++ it.name ++ ":**\n```\n" ++ it.content ++ "\n```"

/-- The final message content `_handleUserMessage` stores for the user
turn: when at least one context item was resolved, a fixed template of a
`Context:` section plus a `Question:` section carrying the ORIGINAL
`message.text`; otherwise the marker-substituted text. -/
def buildFullMessage (v : Variant) (env : Env) (m : UserMessage) : String :=
  if (buildPrompt v env m).2.length > 0 then
    "**Context:**\n" ++ joinSep "\n\n" ((buildPrompt v env m).2.map itemBlock)
      ++ "\n\n**Question:**\n" ++ m.text
  else (buildPrompt v env m).1

/-- The user entry appended at the start of a turn. -/
def userEntry (full : String) : Message := ⟨Role.user, full⟩

/-- The transient loading placeholder. -/
def loadingEntry : Message := ⟨Role.loading, "Thinking..."⟩

/-- The terminal entry appended when the provider call settles:
`ai` with the response on success, `error` with `Error: ${err.message}`
on failure. -/
def terminalEntry : Except String String → Message
  | Except.ok r => ⟨Role.ai, r⟩
  | Except.error e => ⟨Role.error, "Error: " ++ e⟩

/-- Embedding of `this._messageHistory.filter((msg) => msg.role !== 'loading')`. -/
def removeLoading (h : List Message) : List Message :=
  h.filter (fun m => !(m.role == Role.loading))

/-- History after appending the user entry (first broadcast point). -/
def turnH1 (h : List Message) (full : String) : List Message :=
  h ++ [userEntry full]

/-- History after appending the loading placeholder (second broadcast
point). -/
def turnH2 (h : List Message) (full : String) : List Message :=
  turnH1 h full ++ [loadingEntry]

/-- History after the provider call settles: all loading entries removed
and exactly one terminal entry appended (both the success and the
failure path of `_handleUserMessage`). -/
def turnFinal (h : List Message) (full : String) (r : Except String String) : List Message :=
  removeLoading (turnH2 h full) ++ [terminalEntry r]

/-- The three history snapshots broadcast during one `userMessage` turn
handled to completion. -/
def turnStates (h : List Message) (full : String) (r : Except String String) : List (List Message) :=
  [turnH1 h full, turnH2 h full, turnFinal h full r]

/-- No two adjacent entries of the list are both `loading`. -/
def noAdjacentLoading : List Message → Bool
  | [] => true
  | [_] => true
  | a :: b :: t =>
    !(a.role == Role.loading && b.role == Role.loading) && noAdjacentLoading (b :: t)

/-- Liveness of the two presentation surfaces: the persistent side panel
webview (`this._view`) and the detachable panel (`this._panel`); a field
is `false` when the surface has never been created or was disposed. -/
structure Surfaces where
  viewLive : Bool
  panelLive : Bool
deriving DecidableEq

/-- A presentation surface as a broadcast target. -/
inductive SurfaceTarget
  | view
  | panel
deriving DecidableEq

/-- Embedding of `_postMessageHistory`: post the full history snapshot to the side
panel view if it exists, silently doing nothing otherwise. -/
def postMessageHistory (s : Surfaces) (h : List Message) : List (SurfaceTarget × List Message) :=
  if s.viewLive then [(SurfaceTarget.view, h)] else []

/-- Embedding of `_postMessageHistoryToPanel`: post the full history snapshot to the
detachable panel if it exists, silently doing nothing otherwise. -/
def postMessageHistoryToPanel (s : Surfaces) (h : List Message) : List (SurfaceTarget × List Message) :=
  if s.panelLive then [(SurfaceTarget.panel, h)] else []

/-- The pair of broadcast calls `_handleUserMessage` issues after each of
its mutations. -/
def surfaceBroadcast (s : Surfaces) (h : List Message) : List (SurfaceTarget × List Message) :=
  postMessageHistory s h ++ postMessageHistoryToPanel s h

/-- All broadcast events emitted during one `userMessage` turn handled to
completion (after the user append, the loading append, and the terminal
replacement). -/
def userTurnBroadcasts (s : Surfaces) (h : List Message) (full : String)
    (r : Except String String) : List (SurfaceTarget × List Message) :=
  surfaceBroadcast s (turnH1 h full) ++ surfaceBroadcast s (turnH2 h full)
    ++ surfaceBroadcast s (turnFinal h full r)

/-- The active-editor data `_handleSendCurrentFile` reads. -/
structure FileInfo where
  fileName : String
  relativePath : String
  languageId : String
  lineCount : Nat
  workspaceName : String
  content : String
deriving DecidableEq

/-- The user entry `_handleSendCurrentFile` appends: the `File Context`
header joined with `\n`, then the file content in a fenced block. -/
def sendCurrentFileEntry (fi : FileInfo) : Message :=
  ⟨Role.user,
    joinSep "\n"
      ["**File Context:**",
       "- File: `" ++ fi.fileName ++ "`",
       "- Path: `" ++ fi.relativePath ++ "`",
       "- Language: " ++ fi.languageId,
       "- Lines: " ++ toString fi.lineCount,
       "- Workspace: " ++ fi.workspaceName,
       "",
       "**File Content:**"]
      ++ "\n\n```" ++ fi.languageId ++ "\n" ++ fi.content ++ "```"⟩

/-- Embedding of `_handleSendCurrentFile`: append one entry (a `system` notice when no
editor is open, otherwise the file-context user message) and broadcast —
via `_postMessageHistory` only.  Returns the new history and the emitted
broadcast events. -/
def handleSendCurrentFile (s : Surfaces) (h : List Message) (ed : Option FileInfo) :
    List Message × List (SurfaceTarget × List Message) :=
  match ed with
  | none =>
    let h2 := h ++ [⟨Role.system, "No file is currently open."⟩]
    (h2, postMessageHistory s h2)
  | some fi =>
    let h2 := h ++ [sendCurrentFileEntry fi]
    (h2, postMessageHistory s h2)

/-- The active-editor data `_handleSendSelection` reads
(`selectedText = ""` models an empty selection). -/
structure SelectionInfo where
  fileName : String
  relativePath : String
  languageId : String
  startLine : Nat
  endLine : Nat
  startChar : Nat
  endChar : Nat
  workspaceName : String
  selectedText : String
deriving DecidableEq

/-- The user entry `_handleSendSelection` appends. -/
def sendSelectionEntry (si : SelectionInfo) : Message :=
  ⟨Role.user,
    joinSep "\n"
      ["**Selection Context:**",
       "- File: `" ++ si.fileName ++ "`",
       "- Path: `" ++ si.relativePath ++ "`",
       "- Language: " ++ si.languageId,
       "- Lines: " ++ toString si.startLine ++ "-" ++ toString si.endLine,
       "- Characters: " ++ toString si.startChar ++ "-" ++ toString si.endChar,
       "- Workspace: " ++ si.workspaceName,
       "",
       "**Selected Content:**"]
      ++ "\n\n```" ++ si.languageId ++ "\n" ++ si.selectedText ++ "```"⟩

/-- Embedding of `_handleSendSelection`: append one entry and broadcast via
`_postMessageHistory` only. -/
def handleSendSelection (s : Surfaces) (h : List Message) (ed : Option SelectionInfo) :
    List Message × List (SurfaceTarget × List Message) :=
  match ed with
  | none =>
    let h2 := h ++ [⟨Role.system, "No file is currently open."⟩]
    (h2, postMessageHistory s h2)
  | some si =>
    if si.selectedText = "" then
      let h2 := h ++ [⟨Role.system, "No text is selected."⟩]
      (h2, postMessageHistory s h2)
    else
      let h2 := h ++ [sendSelectionEntry si]
      (h2, postMessageHistory s h2)

/-- The workspace data `_handleSendWorkspaceInfo` gathers through the
editor host (`find`/`readdir` structure sample and the detected project
files). -/
structure WorkspaceInfo where
  name : String
  path : String
  projectFiles : List String
  structureSample : String
deriving DecidableEq

/-- The user entry `_handleSendWorkspaceInfo` appends. -/
def sendWorkspaceInfoEntry (ws : WorkspaceInfo) : Message :=
  ⟨Role.user,
    joinSep "\n"
      ["**Workspace Information:**",
       "- Name: " ++ ws.name,
       "- Path: `" ++ ws.path ++ "`",
       "- Project files found: " ++ joinSep ", " ws.projectFiles,
       "",
       "**Directory Structure (sample):**",
       "```",
       ws.structureSample,
       "```"]⟩

/-- Embedding of `_handleSendWorkspaceInfo`: append one entry and broadcast via
`_postMessageHistory` only. -/
def handleSendWorkspaceInfo (s : Surfaces) (h : List Message) (ws : Option WorkspaceInfo) :
    List Message × List (SurfaceTarget × List Message) :=
  match ws with
  | none =>
    let h2 := h ++ [⟨Role.system, "No workspace folder is open."⟩]
    (h2, postMessageHistory s h2)
  | some w =>
    let h2 := h ++ [sendWorkspaceInfoEntry w]
    (h2, postMessageHistory s h2)

/-- The history mutation and broadcast of `_handleApplyInline`
(the editor write itself goes to the editor host): a `system` notice
whose wording depends only on the `target` field, posted via
`_postMessageHistory` only. -/
def handleApplyInlineNotice (s : Surfaces) (h : List Message) (target : Option String)
    (editorOpen : Bool) : List Message × List (SurfaceTarget × List Message) :=
  if !editorOpen then
    let h2 := h ++ [⟨Role.system, "No file is currently open."⟩]
    (h2, postMessageHistory s h2)
  else
    let h2 := h ++ [⟨Role.system,
      "Applied suggestion to "
        ++ (if target = some "selection" then "selection" else "entire file")
        ++ ". [Undo]"⟩]
    (h2, postMessageHistory s h2)

/-- Node `path.resolve` segment splitting (POSIX separator). -/
def splitOnSlash : List Char → List (List Char)
  | [] => [[]]
  | c :: cs =>
    if c == '/' then [] :: splitOnSlash cs
    else
      match splitOnSlash cs with
      | [] => [[c]]
      | g :: gs => (c :: g) :: gs

/-- Node `path.resolve` normalisation over an absolute path: empty and
`.` segments vanish, `..` pops the previous segment (stopping at the
root). -/
def resolveSegs (acc : List (List Char)) : List (List Char) → List (List Char)
  | [] => acc
  | s :: rest =>
    if s = [] || s = ['.'] then resolveSegs acc rest
    else if s = ['.', '.'] then resolveSegs acc.dropLast rest
    else resolveSegs (acc ++ [s]) rest

/-- Node `require('path').resolve(root, filePath)` for a POSIX absolute
`root`, as used by the `/read`, `/edit` and diff scope checks. -/
def pathResolve (root path : String) : String :=
  let joined :=
    if strStartsWith path "/" then path.data else root.data ++ '/' :: path.data
  String.mk ('/' :: List.intercalate ['/'] (resolveSegs [] (splitOnSlash joined)))

/-- The spec-side notion of a resolved path staying within the workspace
root: it is the root itself or lies strictly below it (a `/`-separated
descendant).  Modelled from the spec: "the resolved absolute path must
stay within the first workspace root". -/
def withinRoot (root p : String) : Bool :=
  p = root || strStartsWith p (root ++ "/")

/-- The scoping error `/read` returns. -/
def scopingReadError : String := "Error: Can only read files within the workspace."

/-- The scoping error `/edit` returns. -/
def scopingEditError : String := "Error: Can only edit files within the workspace."

/-- Embedding of `_handleReadFile`: workspace check, `path.resolve` + `startsWith`
scope check, then the read (the second component lists the paths
actually read, to express "performs no file read").  Content of at most
4000 characters is returned in a fenced block; longer content as a
plain-text truncation notice followed by the first 4000 characters. -/
def handleReadFile (root? : Option String) (filePath : String)
    (fsRead : String → Except String String) : String × List String :=
  match root? with
  | none => ("No workspace folder open.", [])
  | some root =>
    let absPath := pathResolve root filePath
    if !(strStartsWith absPath root) then (scopingReadError, [])
    else
      match fsRead absPath with
      | Except.error e => ("Error reading file: " ++ e, [absPath])
      | Except.ok content =>
        if jsLength content > 4000 then
          ("File is too large to display in chat (showing first 4000 chars):\n"
            ++ jsTake content 4000, [absPath])
        else
          ("```\n" ++ content ++ "\n```", [absPath])

/-- Embedding of `_handleEditFile`: same scope check, then the write (second
component lists the performed writes). -/
def handleEditFile (root? : Option String) (filePath newContent : String) :
    String × List (String × String) :=
  match root? with
  | none => ("No workspace folder open.", [])
  | some root =>
    let absPath := pathResolve root filePath
    if !(strStartsWith absPath root) then (scopingEditError, [])
    else ("File " ++ filePath ++ " updated successfully.", [(absPath, newContent)])

/-- The history mutation and broadcast of the `Apply` branch of
`_showPreviewAndApply`: the `/edit`-style write result is appended as a
`system` entry and posted via `_postMessageHistory` only. -/
def handlePreviewApply (s : Surfaces) (h : List Message) (root? : Option String)
    (filePath newContent : String) : List Message × List (SurfaceTarget × List Message) :=
  let h2 := h ++ [⟨Role.system, (handleEditFile root? filePath newContent).1⟩]
  (h2, postMessageHistory s h2)

/-- Splitting the regex `^\/edit\s+([^\s]+)\s+([\s\S]*)$` applied to a
text already known to start with `/edit `: after `/edit` and whitespace,
a non-empty run of non-whitespace characters is the file path, then at
least one whitespace character, then the (possibly empty) content. -/
def parseEditArgs (l : List Char) : Option (String × String) :=
  let afterWs := l.dropWhile jsIsSpace
  let pathChars := afterWs.takeWhile (fun c => !jsIsSpace c)
  let rest := afterWs.dropWhile (fun c => !jsIsSpace c)
  if pathChars = [] then none
  else
    match rest with
    | [] => none
    | _ :: restContent => some (String.mk pathChars, String.mk restContent)

/-- The regex match of the `/edit` command inside `_callAI`. -/
def parseEditCmd (userText : String) : Option (String × String) :=
  parseEditArgs (userText.data.drop 5)

/-- The four provider identifiers. -/
inductive Provider
  | gpt
  | claude
  | grok
  | gemini
deriving DecidableEq

/-- What `_callAI` decides to do with a message: answer a `/read` or
`/edit` command locally, forward a text to one provider strategy, or
fail on an unknown provider identifier. -/
inductive DispatchOutcome
  | commandResult (s : String)
  | providerCall (p : Provider) (text : String)
  | unknownProvider (p : String)
deriving DecidableEq

/-- The active-editor data `_getWorkspaceContext` reads. -/
structure EditorCtx where
  workspaceName : String
  fileName : String
  relativePath : String
  languageId : String
  selectionLines : Option (Nat × Nat)
deriving DecidableEq

/-- Embedding of `_getWorkspaceContext`: the fixed `Current Context` block (workspace
name, active file name and path, language id, and the selection line
range if any), or `null` when no editor is active. -/
def getWorkspaceContext (ed : Option EditorCtx) : Option String :=
  match ed with
  | none => none
  | some e =>
    let selectionInfo :=
      match e.selectionLines with
      | some p => "\n- Selected lines: " ++ toString p.1 ++ "-" ++ toString p.2
      | none => ""
    some (joinSep "\n"
      ["**Current Context:**",
       "- Workspace: " ++ e.workspaceName,
       "- Current file: `" ++ e.fileName ++ "`",
       "- File path: `" ++ e.relativePath ++ "`",
       "- Language: " ++ e.languageId ++ selectionInfo,
       ""])

/-- Embedding of `enhancedUserText`: the context block prepended before the user's
question when context is available. -/
def enhance (contextInfo : Option String) (userText : String) : String :=
  match contextInfo with
  | some ci => ci ++ "\n\n**User Question:**\n" ++ userText
  | none => userText

/-- The configuration and editor-host state `_callAI` consults. -/
structure CallCtx where
  root : Option String
  fsRead : String → Except String String
  contextInfo : Option String
  provider : String

/-- Embedding of `_callAI`: `/read` and `/edit` are intercepted and never reach a
provider; otherwise the context block is prepended (unless suppressed by
the caller) and the configured provider strategy is selected — note the
source passes the raw `userText`, not `enhancedUserText`, to the gemini
strategy. -/
def callAI (ctx : CallCtx) (userText : String) (includeContext : Bool) : DispatchOutcome :=
  if strStartsWith userText "/read " then
    DispatchOutcome.commandResult
      (handleReadFile ctx.root (jsTrim (strReplaceFirst userText "/read " "")) ctx.fsRead).1
  else if strStartsWith userText "/edit " then
    match parseEditCmd userText with
    | none => DispatchOutcome.commandResult "Usage: /edit <file> <new content>"
    | some p => DispatchOutcome.commandResult (handleEditFile ctx.root p.1 p.2).1
  else
    let enhanced := if includeContext then enhance ctx.contextInfo userText else userText
    if ctx.provider = "gpt" then DispatchOutcome.providerCall Provider.gpt enhanced
    else if ctx.provider = "claude" then DispatchOutcome.providerCall Provider.claude enhanced
    else if ctx.provider = "grok" then DispatchOutcome.providerCall Provider.grok enhanced
    else if ctx.provider = "gemini" then DispatchOutcome.providerCall Provider.gemini userText
    else DispatchOutcome.unknownProvider ctx.provider

/-- The optional `message.content` of an OpenAI-style choice. -/
structure GPTMessageObj where
  content : Option String
deriving DecidableEq

/-- One element of `data.choices` of an OpenAI-style response. -/
structure GPTChoice where
  message : Option GPTMessageObj
deriving DecidableEq

/-- An OpenAI-style success envelope (also the shape the grok strategy
parses — the source code of the two parsers is identical). -/
structure GPTEnvelope where
  choices : Option (List GPTChoice)
deriving DecidableEq

/-- The optional chain `data.choices?.[0]?.message?.content`. -/
def gptExtract (d : GPTEnvelope) : Option String :=
  match d.choices with
  | none => none
  | some cs =>
    match cs.head? with
    | none => none
    | some c =>
      match c.message with
      | none => none
      | some m => m.content

/-- One element of `data.content` of a Claude response. -/
structure ClaudeBlock where
  text : Option String
deriving DecidableEq

/-- A Claude success envelope. -/
structure ClaudeEnvelope where
  content : Option (List ClaudeBlock)
deriving DecidableEq

/-- The optional chain `data.content?.[0]?.text`. -/
def claudeExtract (d : ClaudeEnvelope) : Option String :=
  match d.content with
  | none => none
  | some bs =>
    match bs.head? with
    | none => none
    | some b => b.text

/-- One element of `content.parts` of a Gemini candidate. -/
structure GeminiPart where
  text : Option String
deriving DecidableEq

/-- The `content` object of a Gemini candidate. -/
structure GeminiContent where
  parts : Option (List GeminiPart)
deriving DecidableEq

/-- One element of `data.candidates` of a Gemini response. -/
structure GeminiCandidate where
  content : Option GeminiContent
deriving DecidableEq

/-- A Gemini success envelope. -/
structure GeminiEnvelope where
  candidates : Option (List GeminiCandidate)
deriving DecidableEq

/-- The optional chain `data.candidates?.[0]?.content?.parts?.[0]?.text`. -/
def geminiExtract (d : GeminiEnvelope) : Option String :=
  match d.candidates with
  | none => none
  | some cs =>
    match cs.head? with
    | none => none
    | some c =>
      match c.content with
      | none => none
      | some ct =>
        match ct.parts with
        | none => none
        | some ps =>
          match ps.head? with
          | none => none
          | some p => p.text

/-- JS `field?.trim() || '[No response]'`: an absent field, or one whose
trimmed text is empty (falsy), yields the literal fallback; otherwise
the trimmed text. -/
def orNoResponse : Option String → String
  | none => "[No response]"
  | some s => if jsTrim s = "" then "[No response]" else jsTrim s

/-- The response parsing of `_callOpenAIGPT`. -/
def parseGPTResponse (d : GPTEnvelope) : String := orNoResponse (gptExtract d)

/-- The response parsing of `_callGrokStub` (same envelope shape and
optional chain as the GPT strategy). -/
def parseGrokResponse (d : GPTEnvelope) : String := orNoResponse (gptExtract d)

/-- The response parsing of `_callClaudeStub`. -/
def parseClaudeResponse (d : ClaudeEnvelope) : String := orNoResponse (claudeExtract d)

/-- The response parsing of `_callGeminiStub`. -/
def parseGeminiResponse (d : GeminiEnvelope) : String := orNoResponse (geminiExtract d)

/-- The key-missing error of `_callOpenAIGPT`. -/
def gptKeyError : String := "No OpenAI API key set. Please add it in the extension settings."

/-- The key-missing error of `_callClaudeStub`. -/
def claudeKeyError : String := "No Claude API key set. Please add it in the extension settings."

/-- The key-missing error of `_callGrokStub`. -/
def grokKeyError : String := "No Grok API key set. Please add it in the extension settings."

/-- The key-missing error of `_callGeminiStub`. -/
def geminiKeyError : String := "No Gemini API key set. Please add it in the extension settings."

/-- The prior `user`/`ai` turns mapped into OpenAI role vocabulary plus
the new prompt, as both the GPT and the grok strategy build them. -/
def buildRoleMessages (hist : List Message) (userText : String) : List (String × String) :=
  (hist.filter (fun m => m.role == Role.user || m.role == Role.ai)).map
    (fun m => (if m.role == Role.user then "user" else "assistant", m.content))
    ++ [("user", userText)]

/-- Embedding of `_callOpenAIGPT` up to the transport boundary: with an empty (or
unset, since the configuration default is `''`) key it throws the
provider-named error before any request; otherwise one request is made
and a non-success transport result becomes an error carrying the raw
body, while a success envelope is parsed to text. The first component
lists the URLs actually requested. -/
def callOpenAIGPT (apiKey : String) (hist : List Message) (userText : String)
    (transport : Except String GPTEnvelope) : List String × Except String String :=
  if apiKey = "" then ([], Except.error gptKeyError)
  else
    let _messages := buildRoleMessages hist userText
    match transport with
    | Except.error body =>
      (["https://api.openai.com/v1/chat/completions"],
       Except.error ("OpenAI API error: " ++ body))
    | Except.ok d =>
      (["https://api.openai.com/v1/chat/completions"], Except.ok (parseGPTResponse d))

/-- Embedding of `_callClaudeStub` up to the transport boundary (Claude is sent only
the new prompt, no prior history). -/
def callClaude (apiKey : String) (userText : String)
    (transport : Except String ClaudeEnvelope) : List String × Except String String :=
  if apiKey = "" then ([], Except.error claudeKeyError)
  else
    let _messages := [("user", userText)]
    match transport with
    | Except.error body =>
      (["https://api.anthropic.com/v1/messages"],
       Except.error ("Claude API error: " ++ body))
    | Except.ok d =>
      (["https://api.anthropic.com/v1/messages"], Except.ok (parseClaudeResponse d))

/-- Embedding of `_callGrokStub` up to the transport boundary. -/
def callGrok (apiKey : String) (hist : List Message) (userText : String)
    (transport : Except String GPTEnvelope) : List String × Except String String :=
  if apiKey = "" then ([], Except.error grokKeyError)
  else
    let _messages := buildRoleMessages hist userText
    match transport with
    | Except.error body =>
      (["https://api.grok.x.ai/v1/chat/completions"],
       Except.error ("Grok API error: " ++ body))
    | Except.ok d =>
      (["https://api.grok.x.ai/v1/chat/completions"], Except.ok (parseGrokResponse d))

/-- The prior `user`/`ai` turns mapped into Gemini role vocabulary
(`user`/`model`) plus the new prompt. -/
def buildGeminiHistory (hist : List Message) (userText : String) : List (String × String) :=
  (hist.filter (fun m => m.role == Role.user || m.role == Role.ai)).map
    (fun m => (if m.role == Role.user then "user" else "model", m.content))
    ++ [("user", userText)]

/-- Embedding of `_callGeminiStub` up to the transport boundary. -/
def callGemini (apiKey : String) (hist : List Message) (userText : String)
    (transport : Except String GeminiEnvelope) : List String × Except String String :=
  if apiKey = "" then ([], Except.error geminiKeyError)
  else
    let _history := buildGeminiHistory hist userText
    match transport with
    | Except.error body =>
      (["https://generativelanguage.googleapis.com/v1beta/models/gemini-pro:generateContent"],
       Except.error ("Gemini API error: " ++ body))
    | Except.ok d =>
      (["https://generativelanguage.googleapis.com/v1beta/models/gemini-pro:generateContent"],
       Except.ok (parseGeminiResponse d))

/-- Spec-side bolded label line of one context item.  Modelled from the
spec: "every resolved item as `**icon name:**`". -/
def specBoldIconNameLabel (it : ContextItem) : String :=
  "**" ++ it.icon ++ " " ++ it.name ++ ":**\n"

/-- Spec-side fenced block.  Modelled from the spec: "followed by a
fenced block of its content". -/
def specFencedBlock (content : String) : String :=
  "```\n" ++ content ++ "\n```"

/-- Spec-side rendering of one context item: the bolded label followed
by the fenced content block. -/
def specItemLine (it : ContextItem) : String :=
  specBoldIconNameLabel it ++ specFencedBlock it.content

/-- Spec-side joining of the rendered items.  Modelled from the spec:
"joined by blank lines". -/
def specJoinBlankLines : List String → String
  | [] => ""
  | [s] => s
  | s :: rest => s ++ "\n\n" ++ specJoinBlankLines rest

/-- Spec-side final prompt.  Modelled from the spec: "a `Context:`
section listing every resolved item ... followed by a `Question:`
section containing the original, unmodified user text". -/
def specTemplate (originalText : String) (items : List ContextItem) : String :=
  "**Context:**\n" ++ specJoinBlankLines (items.map specItemLine)
    ++ "\n\n**Question:**\n" ++ originalText

/-- An environment in which no selection, file or workspace context is
resolvable and every file read fails. -/
def noCtxEnv : Env := ⟨none, none, none, fun _ => none⟩

/-- A sample resolved selection context item. -/
def sampleSelectionItem : ContextItem := ⟨"📝", "demo.ts:3-3", "x=1"⟩

/-- An environment with an active selection only. -/
def selOnlyEnv : Env := ⟨some sampleSelectionItem, none, none, fun _ => none⟩

/-- A 2001-character file content (exceeds the 2000-character context
truncation limit by one). -/
def bigContent2001 : String := String.mk (List.replicate 2001 'a')

/-- A file system holding only `big.txt` with `bigContent2001`. -/
def bigFileEnv : Env :=
  ⟨none, none, none, fun p => if p = "big.txt" then some bigContent2001 else none⟩

/-- A 4001-character file content (exceeds the 4000-character `/read`
display limit by one). -/
def content4001 : String := String.mk (List.replicate 4001 'b')

/-- A workspace file system for `/ws`: `notes.txt` holds the 4001-byte
content, `small.txt` a short one. -/
def wsFs : String → Except String String := fun p =>
  if p = "/ws/notes.txt" then Except.ok content4001
  else if p = "/ws/small.txt" then Except.ok "hello"
  else Except.error "ENOENT"

/-- A file system in which a sibling directory of the workspace root
`/ws` (namely `/wsx`, sharing the `/ws` string prefix) holds a file. -/
def siblingFs : String → Except String String := fun p =>
  if p = "/wsx/secret.txt" then Except.ok "TOP-SECRET" else Except.error "ENOENT"

/-- A sample active editor without a selection. -/
def sampleEditor : EditorCtx := ⟨"loja", "main.ts", "src/main.ts", "typescript", none⟩

/-- A `_callAI` context for the given provider identifier with the
sample editor's context block available. -/
def sampleCtx (provider : String) : CallCtx :=
  ⟨some "/ws", wsFs, getWorkspaceContext (some sampleEditor), provider⟩

/-- A sample active file for `_handleSendCurrentFile`. -/
def sampleFileInfo : FileInfo := ⟨"main.ts", "src/main.ts", "typescript", 1, "loja", "let x = 1;"⟩

/-- A list without any loading entry has no two adjacent loading
entries. -/
theorem noAdjacentLoading_of_all (l : List Message)
    (h : l.all (fun m => !(m.role == Role.loading)) = true) :
    noAdjacentLoading l = true := by
  induction l with
  | nil => rfl
  | cons a t ih =>
    cases t with
    | nil => rfl
    | cons b t2 =>
      rw [List.all_cons, Bool.and_eq_true] at h
      have hb := h.2
      rw [List.all_cons, Bool.and_eq_true] at hb
      have ha : (a.role == Role.loading) = false := by
        simpa using h.1
      simp only [noAdjacentLoading, Bool.and_eq_true]
      exact ⟨by simp [ha], ih h.2⟩

/-- Appending one entry of any role to a list without loading entries
keeps adjacent loading pairs impossible. -/
theorem noAdjacentLoading_append_one (l : List Message) (x : Message)
    (h : l.all (fun m => !(m.role == Role.loading)) = true) :
    noAdjacentLoading (l ++ [x]) = true := by
  induction l with
  | nil => rfl
  | cons a t ih =>
    rw [List.all_cons, Bool.and_eq_true] at h
    have ha : (a.role == Role.loading) = false := by simpa using h.1
    cases t with
    | nil =>
      simp only [List.cons_append, List.nil_append, noAdjacentLoading, Bool.and_eq_true]
      exact ⟨by simp [ha], trivial⟩
    | cons b t2 =>
      simp only [List.cons_append, noAdjacentLoading, Bool.and_eq_true]
      refine ⟨by simp [ha], ?_⟩
      have := ih h.2
      simpa using this

/-- The function `removeLoading` distributes over append. -/
theorem removeLoading_append (l1 l2 : List Message) :
    removeLoading (l1 ++ l2) = removeLoading l1 ++ removeLoading l2 :=
  List.filter_append _ _

/-- The function `removeLoading` leaves a loading-free list unchanged. -/
theorem removeLoading_eq_self (l : List Message)
    (h : l.all (fun m => !(m.role == Role.loading)) = true) :
    removeLoading l = l := by
  unfold removeLoading
  rw [List.filter_eq_self]
  intro a ha
  exact List.all_eq_true.mp h a ha

/-- The output of `removeLoading` contains no loading entry. -/
theorem removeLoading_all (l : List Message) :
    (removeLoading l).all (fun m => !(m.role == Role.loading)) = true := by
  unfold removeLoading
  rw [List.all_eq_true]
  intro a ha
  exact (List.mem_filter.mp ha).2

/-- The terminal entry of a settled turn is never a loading entry. -/
theorem terminalEntry_not_loading (r : Except String String) :
    (!((terminalEntry r).role == Role.loading)) = true := by
  cases r <;> rfl

/-- The terminal entry of a settled turn has role `ai` or `error`. -/
theorem terminalEntry_role (r : Except String String) :
    (terminalEntry r).role = Role.ai ∨ (terminalEntry r).role = Role.error := by
  cases r
  · exact Or.inr rfl
  · exact Or.inl rfl

/-- On a loading-free starting history, the settled turn is exactly the
old history plus the user entry plus the one terminal entry. -/
theorem turnFinal_eq (h : List Message) (full : String) (r : Except String String)
    (hn : h.all (fun m => !(m.role == Role.loading)) = true) :
    turnFinal h full r = h ++ [userEntry full, terminalEntry r] := by
  unfold turnFinal turnH2 turnH1
  rw [removeLoading_append, removeLoading_append, removeLoading_eq_self h hn]
  have h1 : removeLoading [userEntry full] = [userEntry full] := rfl
  have h2 : removeLoading [loadingEntry] = [] := rfl
  rw [h1, h2]
  simp

/-- C1: during one `userMessage` turn handled to completion (starting
from a history left loading-free by earlier completed turns) the history
never contains two adjacent loading entries at any broadcast point, the
turn's loading entry is removed in both the success and the failure
path, exactly one terminal entry of role `ai` or `error` replaces it,
and the final history is again loading-free, so no subsequent loading
entry can become adjacent to this turn's one. -/
theorem userMessage_turn_loading_invariant
    (h : List Message) (full : String) (r : Except String String)
    (hn : h.all (fun m => !(m.role == Role.loading)) = true) :
    (∀ s ∈ turnStates h full r, noAdjacentLoading s = true)
    ∧ turnFinal h full r = h ++ [userEntry full, terminalEntry r]
    ∧ (turnFinal h full r).all (fun m => !(m.role == Role.loading)) = true
    ∧ ((terminalEntry r).role = Role.ai ∨ (terminalEntry r).role = Role.error) := by
  have hfin := turnFinal_eq h full r hn
  have hall1 : (turnH1 h full).all (fun m => !(m.role == Role.loading)) = true := by
    unfold turnH1
    rw [List.all_append]
    simp [hn, userEntry]
  have hfinall : (turnFinal h full r).all (fun m => !(m.role == Role.loading)) = true := by
    rw [hfin, List.all_append]
    simp only [Bool.and_eq_true]
    refine ⟨hn, ?_⟩
    simp [userEntry, terminalEntry_not_loading r]
  refine ⟨?_, hfin, hfinall, terminalEntry_role r⟩
  intro s hs
  simp only [turnStates, List.mem_cons, List.not_mem_nil, or_false] at hs
  rcases hs with rfl | rfl | rfl
  · exact noAdjacentLoading_of_all _ hall1
  · exact noAdjacentLoading_append_one _ _ hall1
  · exact noAdjacentLoading_of_all _ hfinall

/-- Witness for C1: a concrete turn over a one-entry history with a
successful provider call. -/
theorem userMessage_turn_loading_invariant_witness :
    (([⟨Role.system, "w"⟩] : List Message).all (fun m => !(m.role == Role.loading)) = true)
    ∧ ((∀ s ∈ turnStates [⟨Role.system, "w"⟩] "hi" (Except.ok "answer"),
          noAdjacentLoading s = true)
       ∧ turnFinal [⟨Role.system, "w"⟩] "hi" (Except.ok "answer")
           = [⟨Role.system, "w"⟩] ++ [userEntry "hi", terminalEntry (Except.ok "answer")]
       ∧ (turnFinal [⟨Role.system, "w"⟩] "hi" (Except.ok "answer")).all
           (fun m => !(m.role == Role.loading)) = true
       ∧ ((terminalEntry (Except.ok "answer")).role = Role.ai
          ∨ (terminalEntry (Except.ok "answer")).role = Role.error)) :=
  ⟨by decide, userMessage_turn_loading_invariant _ _ _ (by decide)⟩

/-- Replacing a pattern that does not occur leaves the list unchanged. -/
theorem replaceFirstL_of_not_contains (pat rep s : List Char)
    (h : containsSubL pat s = false) : replaceFirstL pat rep s = s := by
  induction s with
  | nil => rfl
  | cons c cs ih =>
    rw [containsSubL, Bool.or_eq_false_iff] at h
    simp [replaceFirstL, h.1, ih h.2]

/-- Two strings with the same character data are equal. -/
theorem strExt (a b : String) (h : a.data = b.data) : a = b := by
  cases a
  cases b
  exact congrArg String.mk h

/-- Replacing a pattern a string does not include leaves it unchanged. -/
theorem strReplaceFirst_of_not_includes (s pat rep : String)
    (h : strIncludes s pat = false) : strReplaceFirst s pat rep = s := by
  unfold strIncludes at h
  unfold strReplaceFirst
  rw [replaceFirstL_of_not_contains _ _ _ h]

/-- C3 counterexample: in the `src/extension.ts` controller a
`userMessage` containing `[selection]` with no resolvable selection
keeps the literal marker — no descriptive fallback message is
substituted, contradicting the claim for this controller. -/
theorem extensionTs_selection_marker_no_fallback :
    (resolveMarkersExt "fix [selection]" noCtxEnv).1 = "fix [selection]"
    ∧ strIncludes (resolveMarkersExt "fix [selection]" noCtxEnv).1 "[selection]" = true
    ∧ (resolveMarkersExt "fix [selection]" noCtxEnv).1
        ≠ strReplaceFirst "fix [selection]" "[selection]" noSelectionFound := by
  refine ⟨?_, ?_, ?_⟩ <;> decide

/-- C3 amended: when no marker source is resolvable, the `part_000`
controller substitutes the descriptive fallback for `[selection]` (its
first occurrence) while the `src/extension.ts` controller leaves the
text unchanged, and in both controllers the `[file]` and `[workspace]`
markers are silently skipped — no context item is produced and no
fallback text is inserted for them. -/
theorem marker_fallback_asymmetry (t : String) (env : Env)
    (hs : env.selCtx = none) (hf : env.fileCtx = none) (hw : env.wsCtx = none) :
    (resolveMarkersP000 t env).1 = strReplaceFirst t "[selection]" noSelectionFound
    ∧ (resolveMarkersP000 t env).2 = []
    ∧ (resolveMarkersExt t env).1 = t
    ∧ (resolveMarkersExt t env).2 = [] := by
  by_cases hinc : strIncludes t "[selection]" = true
  · simp [resolveMarkersP000, resolveMarkersExt, hs, hf, hw, hinc]
  · have hinc2 : strIncludes t "[selection]" = false := by
      simpa using hinc
    simp [resolveMarkersP000, resolveMarkersExt, hs, hf, hw, hinc2,
      strReplaceFirst_of_not_includes t "[selection]" noSelectionFound hinc2]

/-- Witness for C3 amended: a concrete message containing both the
`[selection]` and the `[file]` marker, with no resolvable source. -/
theorem marker_fallback_asymmetry_witness :
    (noCtxEnv.selCtx = none ∧ noCtxEnv.fileCtx = none ∧ noCtxEnv.wsCtx = none)
    ∧ ((resolveMarkersP000 "fix [selection] and [file]" noCtxEnv).1
         = strReplaceFirst "fix [selection] and [file]" "[selection]" noSelectionFound
       ∧ (resolveMarkersP000 "fix [selection] and [file]" noCtxEnv).2 = []
       ∧ (resolveMarkersExt "fix [selection] and [file]" noCtxEnv).1
           = "fix [selection] and [file]"
       ∧ (resolveMarkersExt "fix [selection] and [file]" noCtxEnv).2 = []) :=
  ⟨⟨rfl, rfl, rfl⟩, marker_fallback_asymmetry "fix [selection] and [file]" noCtxEnv rfl rfl rfl⟩

/-- Character data of a string concatenation. -/
theorem strData_append (a b : String) : (a ++ b).data = a.data ++ b.data := rfl

/-- The source's item rendering coincides with the spec's reading of it. -/
theorem specItemLine_eq_itemBlock (it : ContextItem) : specItemLine it = itemBlock it := by
  apply strExt
  simp only [specItemLine, specBoldIconNameLabel, specFencedBlock, itemBlock,
    strData_append, List.append_assoc]
  simp

/-- The source's `join('\n\n')` coincides with the spec's "joined by
blank lines". -/
theorem joinSep_eq_specJoin (l : List String) :
    joinSep "\n\n" l = specJoinBlankLines l := by
  induction l with
  | nil => rfl
  | cons a t ih =>
    cases t with
    | nil => rfl
    | cons b t2 =>
      simp only [joinSep, specJoinBlankLines]
      rw [ih]

/-- C4: whenever at least one context item was resolved for a
`userMessage` (in either controller variant), the message stored for
the user turn equals the fixed template: a `**Context:**` section
listing each resolved item as a bolded icon-and-name label followed by
a fenced block of its content, items joined by blank lines, then a
`**Question:**` section carrying exactly the original user text as
received — not the marker-substituted display text. -/
theorem context_template_uses_original_text (v : Variant) (env : Env) (m : UserMessage)
    (hres : (buildPrompt v env m).2 ≠ []) :
    buildFullMessage v env m = specTemplate m.text (buildPrompt v env m).2 := by
  unfold buildFullMessage specTemplate
  rw [if_pos (List.length_pos.mpr hres), joinSep_eq_specJoin]
  rw [show itemBlock = specItemLine from funext fun it => (specItemLine_eq_itemBlock it).symm]

/-- Witness for C4: the message `fix [selection]` with an active
selection resolves one context item and is stored as the template over
the original text. -/
theorem context_template_uses_original_text_witness :
    ((buildPrompt Variant.part000 selOnlyEnv ⟨"fix [selection]", [], []⟩).2 ≠ [])
    ∧ buildFullMessage Variant.part000 selOnlyEnv ⟨"fix [selection]", [], []⟩
        = specTemplate "fix [selection]"
            (buildPrompt Variant.part000 selOnlyEnv ⟨"fix [selection]", [], []⟩).2 :=
  ⟨by decide, context_template_uses_original_text _ _ _ (by decide)⟩

/-- C2: evaluation at the failing input — with first workspace root
`/ws`, the command path `../wsx/secret.txt` resolves to
`/wsx/secret.txt`, which does NOT stay within the root, yet the
prefix-string scope check `absPath.startsWith(root)` accepts it: no
scoping error is returned and the out-of-root file read IS performed,
its fenced content returned to the chat. -/
theorem read_scope_prefix_escape :
    pathResolve "/ws" "../wsx/secret.txt" = "/wsx/secret.txt"
    ∧ withinRoot "/ws" (pathResolve "/ws" "../wsx/secret.txt") = false
    ∧ (handleReadFile (some "/ws") "../wsx/secret.txt" siblingFs).1 = "```\nTOP-SECRET\n```"
    ∧ (handleReadFile (some "/ws") "../wsx/secret.txt" siblingFs).1 ≠ scopingReadError
    ∧ (handleReadFile (some "/ws") "../wsx/secret.txt" siblingFs).2 = ["/wsx/secret.txt"]
    ∧ callAI ⟨some "/ws", siblingFs, none, "gpt"⟩ "/read ../wsx/secret.txt" false
        = DispatchOutcome.commandResult "```\nTOP-SECRET\n```" := by
  refine ⟨?_, ?_, ?_, ?_, ?_, ?_⟩ <;> decide

/-- C6: evaluation at the failing input — with an active editor and
context augmentation not suppressed, the gpt, claude and grok
strategies receive the `Current Context` block prepended before the
question, but the gemini strategy receives the raw user text (the
source passes `userText` instead of `enhancedUserText` to
`_callGeminiStub`), and the two texts differ. -/
theorem gemini_context_dropped :
    callAI (sampleCtx "gemini") "Explain this code" true
      = DispatchOutcome.providerCall Provider.gemini "Explain this code"
    ∧ callAI (sampleCtx "gpt") "Explain this code" true
      = DispatchOutcome.providerCall Provider.gpt
          (enhance (getWorkspaceContext (some sampleEditor)) "Explain this code")
    ∧ callAI (sampleCtx "claude") "Explain this code" true
      = DispatchOutcome.providerCall Provider.claude
          (enhance (getWorkspaceContext (some sampleEditor)) "Explain this code")
    ∧ callAI (sampleCtx "grok") "Explain this code" true
      = DispatchOutcome.providerCall Provider.grok
          (enhance (getWorkspaceContext (some sampleEditor)) "Explain this code")
    ∧ enhance (getWorkspaceContext (some sampleEditor)) "Explain this code"
        ≠ "Explain this code" := by
  refine ⟨?_, ?_, ?_, ?_, ?_⟩ <;> decide

set_option maxRecDepth 4000

/-- Evaluation of `_handleReadFile` in the over-limit case. -/
theorem handleReadFile_large (root filePath : String)
    (fsRead : String → Except String String) (content : String)
    (hscope : strStartsWith (pathResolve root filePath) root = true)
    (hread : fsRead (pathResolve root filePath) = Except.ok content)
    (hgt : jsLength content > 4000) :
    (handleReadFile (some root) filePath fsRead).1
      = "File is too large to display in chat (showing first 4000 chars):\n"
          ++ jsTake content 4000 := by
  simp only [handleReadFile, hscope, Bool.not_true, Bool.false_eq_true, if_false, hread]
  rw [if_pos hgt]

/-- A pattern beginning with a character that never occurs in a list is
not a substring of it. -/
theorem containsSubL_cons_eq_false (a : Char) (pat s : List Char)
    (h : ∀ c ∈ s, (c == a) = false) : containsSubL (a :: pat) s = false := by
  induction s with
  | nil => rfl
  | cons c cs ih =>
    have hca : (c == a) = false := h c (List.mem_cons_self c cs)
    have hac : (a == c) = false := by
      rcases Bool.eq_false_iff.mp hca with _
      rw [Bool.eq_false_iff]
      intro hx
      exact (Bool.eq_false_iff.mp hca) (by rw [beq_iff_eq] at hx ⊢; exact hx.symm)
    rw [containsSubL, Bool.or_eq_false_iff]
    refine ⟨?_, ih fun x hx => h x (List.mem_cons_of_mem c hx)⟩
    rw [isPrefixL, Bool.and_eq_false_iff]
    exact Or.inl hac

/-- A string not containing a pattern does not start with it either. -/
theorem isPrefixL_eq_false_of_not_contains (pat s : List Char)
    (h : containsSubL pat s = false) : isPrefixL pat s = false := by
  cases s with
  | nil => exact h
  | cons c cs =>
    rw [containsSubL, Bool.or_eq_false_iff] at h
    exact h.1

/-- C7 counterexample: reading an in-workspace 4001-character file via
`/read` yields the plain truncation notice followed by the first 4000
characters — the result is NOT wrapped in a fenced block; it contains
no triple backtick at all. -/
theorem read_truncation_not_fenced :
    (handleReadFile (some "/ws") "notes.txt" wsFs).1
      = "File is too large to display in chat (showing first 4000 chars):\n"
          ++ jsTake content4001 4000
    ∧ strStartsWith (handleReadFile (some "/ws") "notes.txt" wsFs).1 "```" = false
    ∧ strIncludes (handleReadFile (some "/ws") "notes.txt" wsFs).1 "```" = false := by
  have h2 : wsFs (pathResolve "/ws" "notes.txt") = Except.ok content4001 := rfl
  have h3 : jsLength content4001 > 4000 := by
    show (List.replicate 4001 'b').length > 4000
    rw [List.length_replicate]
    norm_num
  have hres := handleReadFile_large "/ws" "notes.txt" wsFs content4001 (by decide) h2 h3
  have htake : jsTake content4001 4000 = String.mk (List.replicate 4000 'b') := by
    show String.mk ((List.replicate 4001 'b').take 4000) = _
    rw [List.take_replicate]
    norm_num
  have hmem : ∀ c ∈ ((handleReadFile (some "/ws") "notes.txt" wsFs).1).data,
      (c == '`') = false := by
    rw [hres, htake]
    intro c hc
    rw [strData_append] at hc
    rcases List.mem_append.mp hc with hc1 | hc2
    · have hlit : ∀ x ∈ ("File is too large to display in chat (showing first 4000 chars):\n" : String).data,
          (x == '`') = false := by decide
      exact hlit c hc1
    · have hb : c = 'b' := List.eq_of_mem_replicate hc2
      rw [hb]
      rfl
  have hcont : strIncludes (handleReadFile (some "/ws") "notes.txt" wsFs).1 "```" = false :=
    containsSubL_cons_eq_false '`' _ _ hmem
  have hstart : strStartsWith (handleReadFile (some "/ws") "notes.txt" wsFs).1 "```" = false :=
    isPrefixL_eq_false_of_not_contains _ _ hcont
  exact ⟨hres, hstart, hcont⟩

/-- C7 amended: `/read` on a readable in-workspace file returns the
content wrapped in a triple-backtick fenced block when it has at most
4000 characters, and otherwise a plain-text truncation notice followed
by the first 4000 characters (no fenced block); in either case the
command is intercepted by the dispatcher and never reaches a provider. -/
theorem readFile_output_format (root filePath : String)
    (fsRead : String → Except String String) (content : String)
    (hscope : strStartsWith (pathResolve root filePath) root = true)
    (hread : fsRead (pathResolve root filePath) = Except.ok content) :
    (jsLength content ≤ 4000 →
       (handleReadFile (some root) filePath fsRead).1 = "```\n" ++ content ++ "\n```")
    ∧ (jsLength content > 4000 →
       (handleReadFile (some root) filePath fsRead).1
         = "File is too large to display in chat (showing first 4000 chars):\n"
             ++ jsTake content 4000)
    ∧ (∀ ctx : CallCtx, ∀ ut : String, ∀ ic : Bool,
        strStartsWith ut "/read " = true →
        ∃ res, callAI ctx ut ic = DispatchOutcome.commandResult res) := by
  refine ⟨?_, ?_, ?_⟩
  · intro hle
    simp only [handleReadFile, hscope, Bool.not_true, Bool.false_eq_true, if_false, hread]
    rw [if_neg (by omega)]
  · intro hgt
    simp only [handleReadFile, hscope, Bool.not_true, Bool.false_eq_true, if_false, hread]
    rw [if_pos hgt]
  · intro ctx ut ic hcmd
    simp only [callAI, hcmd, if_true]
    exact ⟨_, rfl⟩

/-- Witness for C7 amended: reading the short in-workspace file
`small.txt` returns its content in a fenced block. -/
theorem readFile_output_format_witness :
    (handleReadFile (some "/ws") "small.txt" wsFs).1 = "```\nhello\n```" :=
  (readFile_output_format "/ws" "small.txt" wsFs "hello" (by decide) rfl).1 (by decide)

/-- Every event emitted by `_postMessageHistory` targets the side panel
view. -/
theorem postMessageHistory_targets (s : Surfaces) (h2 : List Message) :
    ∀ e ∈ postMessageHistory s h2, e.1 = SurfaceTarget.view := by
  intro e he
  unfold postMessageHistory at he
  split at he
  · rw [List.mem_singleton] at he
    rw [he]
  · exact absurd he (List.not_mem_nil e)

/-- With a live view, the per-mutation broadcast of a `userMessage` turn
reaches the view with the given snapshot. -/
theorem view_mem_surfaceBroadcast (s : Surfaces) (st : List Message)
    (hv : s.viewLive = true) :
    (SurfaceTarget.view, st) ∈ surfaceBroadcast s st := by
  unfold surfaceBroadcast postMessageHistory
  rw [hv]
  simp

/-- With a live panel, the per-mutation broadcast of a `userMessage`
turn reaches the panel with the given snapshot. -/
theorem panel_mem_surfaceBroadcast (s : Surfaces) (st : List Message)
    (hp : s.panelLive = true) :
    (SurfaceTarget.panel, st) ∈ surfaceBroadcast s st := by
  unfold surfaceBroadcast postMessageHistoryToPanel
  rw [hp]
  cases hv : s.viewLive <;> simp [postMessageHistory, hv]

/-- Every event of a per-mutation broadcast is one of the two expected
surface events. -/
theorem mem_surfaceBroadcast_cases (s : Surfaces) (st : List Message) (e : SurfaceTarget × List Message)
    (he : e ∈ surfaceBroadcast s st) :
    (e = (SurfaceTarget.view, st) ∧ s.viewLive = true)
    ∨ (e = (SurfaceTarget.panel, st) ∧ s.panelLive = true) := by
  unfold surfaceBroadcast postMessageHistory postMessageHistoryToPanel at he
  cases hv : s.viewLive <;> cases hp : s.panelLive <;>
    rw [hv, hp] at he <;> simp at he <;> tauto

/-- Decomposition of the six-event broadcast trace of one turn. -/
theorem mem_userTurnBroadcasts_cases (s : Surfaces) (h : List Message) (full : String)
    (r : Except String String) (e : SurfaceTarget × List Message)
    (he : e ∈ userTurnBroadcasts s h full r) :
    ∃ st ∈ turnStates h full r,
      (e = (SurfaceTarget.view, st) ∧ s.viewLive = true)
      ∨ (e = (SurfaceTarget.panel, st) ∧ s.panelLive = true) := by
  unfold userTurnBroadcasts at he
  rcases List.mem_append.mp he with he2 | he3
  · rcases List.mem_append.mp he2 with he4 | he5
    · exact ⟨turnH1 h full, by simp [turnStates], mem_surfaceBroadcast_cases _ _ _ he4⟩
    · exact ⟨turnH2 h full, by simp [turnStates], mem_surfaceBroadcast_cases _ _ _ he5⟩
  · exact ⟨turnFinal h full r, by simp [turnStates], mem_surfaceBroadcast_cases _ _ _ he3⟩

/-- The broadcast of `_handleSendSelection` is always a view-only post
of the new snapshot. -/
theorem handleSendSelection_snd (s : Surfaces) (h : List Message) (ed : Option SelectionInfo) :
    (handleSendSelection s h ed).2 = postMessageHistory s (handleSendSelection s h ed).1 := by
  cases ed with
  | none => rfl
  | some si =>
    by_cases hsel : si.selectedText = "" <;> simp [handleSendSelection, hsel]

/-- The broadcast of `_handleApplyInline` is always a view-only post of
the new snapshot. -/
theorem handleApplyInlineNotice_snd (s : Surfaces) (h : List Message) (tgt : Option String)
    (eo : Bool) :
    (handleApplyInlineNotice s h tgt eo).2
      = postMessageHistory s (handleApplyInlineNotice s h tgt eo).1 := by
  cases eo <;> simp [handleApplyInlineNotice]

/-- C5 counterexample: with BOTH surfaces live, the mutation made by
`sendCurrentFile` is followed by a broadcast to the side panel view
only; the live detachable panel receives no event, contradicting the
claim that every mutation is pushed to every currently live surface. -/
theorem sendCurrentFile_panel_not_updated :
    (⟨true, true⟩ : Surfaces).panelLive = true
    ∧ (handleSendCurrentFile ⟨true, true⟩ [] (some sampleFileInfo)).2
        = [(SurfaceTarget.view, (handleSendCurrentFile ⟨true, true⟩ [] (some sampleFileInfo)).1)]
    ∧ (∀ e ∈ (handleSendCurrentFile ⟨true, true⟩ [] (some sampleFileInfo)).2,
        e.1 ≠ SurfaceTarget.panel) := by
  refine ⟨rfl, rfl, ?_⟩
  intro e he
  have := postMessageHistory_targets ⟨true, true⟩ _ e he
  rw [this]
  intro hx
  cases hx

/-- C5 amended: during a `userMessage` turn every mutation's snapshot is
pushed to each of the two surfaces exactly when that surface is live (a
missing surface is silently skipped — the broadcast functions are total
and emit nothing for it); the mutations made by `sendCurrentFile`,
`sendSelection`, `sendWorkspaceInfo`, `applyInline` and the
preview-apply flow are instead followed by a broadcast to the side
panel view only — the detachable panel receives no event from them even
when it is live. -/
theorem broadcast_surface_coverage (s : Surfaces) (h : List Message) :
    (∀ full : String, ∀ r : Except String String,
       (s.viewLive = true → ∀ st ∈ turnStates h full r,
          (SurfaceTarget.view, st) ∈ userTurnBroadcasts s h full r)
       ∧ (s.panelLive = true → ∀ st ∈ turnStates h full r,
          (SurfaceTarget.panel, st) ∈ userTurnBroadcasts s h full r)
       ∧ (s.viewLive = false → ∀ e ∈ userTurnBroadcasts s h full r,
          e.1 ≠ SurfaceTarget.view)
       ∧ (s.panelLive = false → ∀ e ∈ userTurnBroadcasts s h full r,
          e.1 ≠ SurfaceTarget.panel))
    ∧ (∀ ed, ∀ e ∈ (handleSendCurrentFile s h ed).2, e.1 = SurfaceTarget.view)
    ∧ (∀ ed, ∀ e ∈ (handleSendSelection s h ed).2, e.1 = SurfaceTarget.view)
    ∧ (∀ ws, ∀ e ∈ (handleSendWorkspaceInfo s h ws).2, e.1 = SurfaceTarget.view)
    ∧ (∀ tgt eo, ∀ e ∈ (handleApplyInlineNotice s h tgt eo).2, e.1 = SurfaceTarget.view)
    ∧ (∀ root fp nc, ∀ e ∈ (handlePreviewApply s h root fp nc).2, e.1 = SurfaceTarget.view) := by
  refine ⟨?_, ?_, ?_, ?_, ?_, ?_⟩
  · intro full r
    refine ⟨?_, ?_, ?_, ?_⟩
    · intro hv st hst
      unfold userTurnBroadcasts
      simp only [turnStates, List.mem_cons, List.not_mem_nil, or_false] at hst
      rcases hst with rfl | rfl | rfl
      · exact List.mem_append_left _ (List.mem_append_left _ (view_mem_surfaceBroadcast s _ hv))
      · exact List.mem_append_left _ (List.mem_append_right _ (view_mem_surfaceBroadcast s _ hv))
      · exact List.mem_append_right _ (view_mem_surfaceBroadcast s _ hv)
    · intro hp st hst
      unfold userTurnBroadcasts
      simp only [turnStates, List.mem_cons, List.not_mem_nil, or_false] at hst
      rcases hst with rfl | rfl | rfl
      · exact List.mem_append_left _ (List.mem_append_left _ (panel_mem_surfaceBroadcast s _ hp))
      · exact List.mem_append_left _ (List.mem_append_right _ (panel_mem_surfaceBroadcast s _ hp))
      · exact List.mem_append_right _ (panel_mem_surfaceBroadcast s _ hp)
    · intro hv e he
      rcases mem_userTurnBroadcasts_cases s h full r e he with ⟨st, _, ⟨_, hlive⟩ | ⟨heq, _⟩⟩
      · rw [hlive] at hv
        cases hv
      · rw [heq]
        intro hx
        cases hx
    · intro hp e he
      rcases mem_userTurnBroadcasts_cases s h full r e he with ⟨st, _, ⟨heq, _⟩ | ⟨_, hlive⟩⟩
      · rw [heq]
        intro hx
        cases hx
      · rw [hlive] at hp
        cases hp
  · intro ed e he
    cases ed with
    | none => exact postMessageHistory_targets _ _ e he
    | some fi => exact postMessageHistory_targets _ _ e he
  · intro ed e he
    cases ed with
    | none => exact postMessageHistory_targets _ _ e he
    | some si =>
      rw [handleSendSelection_snd] at he
      exact postMessageHistory_targets _ _ e he
  · intro ws e he
    cases ws with
    | none => exact postMessageHistory_targets _ _ e he
    | some w => exact postMessageHistory_targets _ _ e he
  · intro tgt eo e he
    rw [handleApplyInlineNotice_snd] at he
    exact postMessageHistory_targets _ _ e he
  · intro root fp nc e he
    exact postMessageHistory_targets _ _ e he

/-- Witness for C5 amended: with both surfaces live, each of the three
turn snapshots reaches both surfaces, and the `sendCurrentFile`
broadcast targets only the view. -/
theorem broadcast_surface_coverage_witness :
    ((⟨true, true⟩ : Surfaces).viewLive = true
     ∧ turnH1 [] "hi" ∈ turnStates [] "hi" (Except.ok "ok"))
    ∧ (SurfaceTarget.view, turnH1 [] "hi")
        ∈ userTurnBroadcasts ⟨true, true⟩ [] "hi" (Except.ok "ok")
    ∧ (SurfaceTarget.panel, turnH1 [] "hi")
        ∈ userTurnBroadcasts ⟨true, true⟩ [] "hi" (Except.ok "ok")
    ∧ (∀ e ∈ (handleSendCurrentFile ⟨true, true⟩ [] (some sampleFileInfo)).2,
        e.1 = SurfaceTarget.view) := by
  have hm := broadcast_surface_coverage (⟨true, true⟩ : Surfaces) ([] : List Message)
  have hst : turnH1 [] "hi" ∈ turnStates [] "hi" (Except.ok "ok") := by
    simp [turnStates]
  refine ⟨⟨rfl, hst⟩, ?_, ?_, ?_⟩
  · exact ((hm.1 "hi" (Except.ok "ok")).1 rfl _ hst)
  · exact ((hm.1 "hi" (Except.ok "ok")).2.1 rfl _ hst)
  · exact hm.2.1 (some sampleFileInfo)

/-- C8: with an empty (i.e. unset, the configuration default) API
credential, every one of the four provider strategies fails fast — no
transport request is issued and the error message names the provider —
and a turn whose provider call fails with any error message settles
normally: the loading entry is removed, exactly one `error` entry with
`Error: ` plus the message is appended as the last history entry, and
the conversation can continue. -/
theorem missing_api_key_fails_fast (hist h : List Message) (ut full : String)
    (t1 t3 : Except String GPTEnvelope) (t2 : Except String ClaudeEnvelope)
    (t4 : Except String GeminiEnvelope) :
    callOpenAIGPT "" hist ut t1 = ([], Except.error gptKeyError)
    ∧ callClaude "" ut t2 = ([], Except.error claudeKeyError)
    ∧ callGrok "" hist ut t3 = ([], Except.error grokKeyError)
    ∧ callGemini "" hist ut t4 = ([], Except.error geminiKeyError)
    ∧ strIncludes gptKeyError "OpenAI" = true
    ∧ strIncludes claudeKeyError "Claude" = true
    ∧ strIncludes grokKeyError "Grok" = true
    ∧ strIncludes geminiKeyError "Gemini" = true
    ∧ (∀ e : String,
        turnFinal h full (Except.error e)
          = removeLoading (turnH2 h full) ++ [⟨Role.error, "Error: " ++ e⟩]
        ∧ (turnFinal h full (Except.error e)).all (fun m => !(m.role == Role.loading)) = true
        ∧ (turnFinal h full (Except.error e)).getLast? = some ⟨Role.error, "Error: " ++ e⟩) := by
  refine ⟨rfl, rfl, rfl, rfl, by decide, by decide, by decide, by decide, ?_⟩
  intro e
  refine ⟨rfl, ?_, ?_⟩
  · unfold turnFinal
    rw [List.all_append]
    simp [removeLoading_all, terminalEntry]
  · unfold turnFinal
    rw [List.getLast?_append_cons]
    rfl

/-- An absent text field, or one that trims to the empty string, yields
the literal fallback. -/
theorem orNoResponse_fallback (o : Option String)
    (h : o = none ∨ ∃ s, o = some s ∧ jsTrim s = "") :
    orNoResponse o = "[No response]" := by
  rcases h with h | ⟨s, hs, ht⟩
  · rw [h]
    rfl
  · rw [hs]
    show (if jsTrim s = "" then "[No response]" else jsTrim s) = "[No response]"
    rw [if_pos ht]

/-- C9: for each of the four providers, a successful transport result
whose parsed envelope lacks the expected text field — or whose text
field trims to the empty string — parses to the literal `[No response]`
(a total function result: never `undefined`, never an exception). -/
theorem empty_response_fallback
    (d1 d3 : GPTEnvelope) (d2 : ClaudeEnvelope) (d4 : GeminiEnvelope)
    (h1 : gptExtract d1 = none ∨ ∃ s, gptExtract d1 = some s ∧ jsTrim s = "")
    (h2 : claudeExtract d2 = none ∨ ∃ s, claudeExtract d2 = some s ∧ jsTrim s = "")
    (h3 : gptExtract d3 = none ∨ ∃ s, gptExtract d3 = some s ∧ jsTrim s = "")
    (h4 : geminiExtract d4 = none ∨ ∃ s, geminiExtract d4 = some s ∧ jsTrim s = "") :
    parseGPTResponse d1 = "[No response]"
    ∧ parseClaudeResponse d2 = "[No response]"
    ∧ parseGrokResponse d3 = "[No response]"
    ∧ parseGeminiResponse d4 = "[No response]" :=
  ⟨orNoResponse_fallback _ h1, orNoResponse_fallback _ h2,
   orNoResponse_fallback _ h3, orNoResponse_fallback _ h4⟩

/-- Witness for C9: an envelope with no choices at all (gpt, claude,
gemini) and one whose text field is whitespace only (grok). -/
theorem empty_response_fallback_witness :
    parseGPTResponse ⟨none⟩ = "[No response]"
    ∧ parseClaudeResponse ⟨none⟩ = "[No response]"
    ∧ parseGrokResponse ⟨some [⟨some ⟨some "   "⟩⟩]⟩ = "[No response]"
    ∧ parseGeminiResponse ⟨none⟩ = "[No response]" :=
  empty_response_fallback ⟨none⟩ ⟨some [⟨some ⟨some "   "⟩⟩]⟩ ⟨none⟩ ⟨none⟩
    (Or.inl rfl) (Or.inl rfl) (Or.inr ⟨"   ", rfl, rfl⟩) (Or.inl rfl)

/-- C10: for every file attached as context, a successful read longer
than 2000 characters resolves to exactly the first 2000 characters
followed by a newline and the literal `... (truncated)` marker, a
shorter read resolves to the full content, and a failed read resolves
to `null`, so the corresponding bubble is silently dropped from the
prompt. -/
theorem fileContext_truncation (env : Env) (path content : String)
    (hr : env.readFile path = some content) :
    (jsLength content > 2000 →
       handleAddFileToContext env path
         = some ⟨"📄", lastPathComponent path, jsTake content 2000 ++ "\n... (truncated)"⟩)
    ∧ (jsLength content ≤ 2000 →
       handleAddFileToContext env path = some ⟨"📄", lastPathComponent path, content⟩)
    ∧ (∀ p2 : String, env.readFile p2 = none →
         handleAddFileToContext env p2 = none
         ∧ (p2 ≠ "" → resolveBubble env (Bubble.file p2) = [])) := by
  refine ⟨?_, ?_, ?_⟩
  · intro hgt
    simp only [handleAddFileToContext, hr]
    rw [if_pos hgt]
  · intro hle
    simp only [handleAddFileToContext, hr]
    rw [if_neg (by omega)]
  · intro p2 hp2
    have hnone : handleAddFileToContext env p2 = none := by
      simp only [handleAddFileToContext, hp2]
    refine ⟨hnone, ?_⟩
    intro hne
    simp only [resolveBubble]
    rw [if_neg hne, hnone]

/-- Witness for C10: a 2001-character file is truncated to its first
2000 characters plus the marker. -/
theorem fileContext_truncation_witness :
    bigFileEnv.readFile "big.txt" = some bigContent2001
    ∧ jsLength bigContent2001 > 2000
    ∧ handleAddFileToContext bigFileEnv "big.txt"
        = some ⟨"📄", lastPathComponent "big.txt",
                jsTake bigContent2001 2000 ++ "\n... (truncated)"⟩ :=
  ⟨rfl,
   by
     show (List.replicate 2001 'a').length > 2000
     rw [List.length_replicate]
     norm_num,
   (fileContext_truncation bigFileEnv "big.txt" bigContent2001 rfl).1
     (by
       show (List.replicate 2001 'a').length > 2000
       rw [List.length_replicate]
       norm_num)⟩

end Loja
